import Mathlib

/-!
Shallow embedding of src/coupling/powerplant.py, the power plant model of the
IF_PPlant_GeoStorage coupling interface, together with proofs settling the
frozen claims about it.

Modelling conventions: Python floats are modelled as rationals; a float
division by an exact zero is modelled as a ZeroDivisionError (an Option none
or an error result) rather than by the total rational division, matching
CPython semantics at the points where it matters. Calls into the external
tespy solver are modelled by oracle functions recorded in the plant state:
the oracle maps the parameters the code sets before a solve to the converged
quantities the code reads afterwards.
-/

namespace PowerPlant

/-- The Python builtin `abs` on a float, modelled on rationals. -/
def pyabs (q : ℚ) : ℚ := if q < 0 then -q else q

theorem pyabs_eq_abs (q : ℚ) : pyabs q = |q| := by
  unfold pyabs
  split_ifs with h
  · exact (abs_of_neg h).symm
  · exact (abs_of_nonneg (le_of_not_lt h)).symm

/-- Range clamp inside the `newton` loop (powerplant.py lines 459-463):
first `if val < valmin: val = valmin`, then `if val > valmax: val = valmax`,
applied in that order. -/
def newtonClamp (valmin valmax val : ℚ) : ℚ :=
  let v := if val < valmin then valmin else val
  if v > valmax then valmax else v

/-- The `while abs(res) >= 1e-5` loop of `newton` (powerplant.py lines
450-469), written as recursion on `rem = imax - i`, the number of loop bodies
the `i > imax` exit still allows. The body computes the residual
`res = k - func(params, val)`, performs the update
`val += res / deriv(params, val)` (a zero derivative raises
ZeroDivisionError, modelled as `none`; the division happens before the
iteration-cap test, as in the source), clamps `val` into the range, and
returns 0 once the incremented iteration counter exceeds `imax`, that is,
once `rem` is exhausted. -/
def newtonGo (f fd : ℚ → ℚ) (k valmin valmax : ℚ) : ℕ → ℚ → ℚ → Option ℚ
  | 0, val, res =>
    if pyabs res < 1 / 100000 then some val
    else if fd val = 0 then none
    else some 0
  | rem + 1, val, res =>
    if pyabs res < 1 / 100000 then some val
    else if fd val = 0 then none
    else
      newtonGo f fd k valmin valmax rem
        (newtonClamp valmin valmax (val + (k - f val) / fd val)) (k - f val)

/-- The function `newton(func, deriv, params, k, **kwargs)` (powerplant.py
lines 415-469), with the keyword defaults `val0=200`, `valmin=0`,
`valmax=3000`, `imax=10` made explicit arguments and the parameter list
`params` already closed over inside `f` and `fd`. The loop starts from
`res = 1`, `i = 0`. -/
def newton (f fd : ℚ → ℚ) (k val0 valmin valmax : ℚ) (imax : ℕ) : Option ℚ :=
  newtonGo f fd k valmin valmax imax val0 1

/-- The function `reverse_2d(params, y)` (powerplant.py lines 384-397):
residual `x2 - func.ev(y, x1)` for `params = [func, x1, x2]`. -/
def reverse_2d (ev : ℚ → ℚ → ℚ) (x1 x2 y : ℚ) : ℚ := x2 - ev y x1

/-- The function `reverse_2d_deriv(params, y)` (powerplant.py lines 400-412):
`- func.ev(y, x1, dx=1)`, the negated first partial derivative of the
spline along its first axis. -/
def reverse_2d_deriv (evdx : ℚ → ℚ → ℚ) (x1 y : ℚ) : ℚ := -(evdx y x1)

theorem newtonClamp_mem (valmin valmax val : ℚ) (h : valmin ≤ valmax) :
    valmin ≤ newtonClamp valmin valmax val ∧ newtonClamp valmin valmax val ≤ valmax := by
  unfold newtonClamp
  dsimp only
  split_ifs <;> exact ⟨by linarith, by linarith⟩

/-- Case analysis for a terminating run of the newton loop: any returned
value is the entry value with the entry residual already below tolerance, or
the hard 0 of the iteration-cap exit, or the clamped Newton update of a
point whose residual was below tolerance. -/
theorem newtonGo_cases (f fd : ℚ → ℚ) (k valmin valmax : ℚ) :
    ∀ (rem : ℕ) (val res v : ℚ),
      newtonGo f fd k valmin valmax rem val res = some v →
      (v = val ∧ pyabs res < 1 / 100000) ∨ v = 0 ∨
        ∃ x0, fd x0 ≠ 0 ∧ pyabs (k - f x0) < 1 / 100000 ∧
          v = newtonClamp valmin valmax (x0 + (k - f x0) / fd x0) := by
  intro rem
  induction rem with
  | zero =>
    intro val res v h
    rw [newtonGo] at h
    split_ifs at h with h1 h2
    · exact Or.inl ⟨(Option.some.inj h).symm, h1⟩
    · exact Or.inr (Or.inl (Option.some.inj h).symm)
  | succ rem ih =>
    intro val res v h
    rw [newtonGo] at h
    split_ifs at h with h1 h2
    · exact Or.inl ⟨(Option.some.inj h).symm, h1⟩
    · rcases ih _ _ _ h with ⟨hv, hres⟩ | h0 | h3
      · exact Or.inr (Or.inr ⟨val, h2, hres, hv⟩)
      · exact Or.inr (Or.inl h0)
      · exact Or.inr (Or.inr h3)

/-- Claim C4, counterexample. With the exact derivative of `f(x) = x * x`,
target `k = 901e-8`, starting value `val0 = 1e-4` and the default bounds and
iteration cap, `newton` returns `451/10000` without exceeding the iteration
cap (a cap exit returns exactly 0, and the returned value is nonzero), yet
the residual at the returned point is `2025e-6`, far above the `1e-5`
tolerance: the tolerance test applies to the iterate before the final
update, not to the returned value, refuting the claim as stated. -/
theorem C4_counterexample :
    newton (fun x => x * x) (fun x => 2 * x) (901 / 100000000) (1 / 10000) 0 3000 10 =
      some (451 / 10000) ∧
    (451 / 10000 : ℚ) ≠ 0 ∧
    ¬ (pyabs (901 / 100000000 - (451 / 10000 : ℚ) * (451 / 10000)) < 1 / 100000) := by
  refine ⟨?_, by norm_num, ?_⟩ <;> norm_num [newton, newtonGo, newtonClamp, pyabs]

/-- Claim C4, amended. The newton root-finder iterates
`x += (k - f x) / fd x` with clamping into `[valmin, valmax]` after each
update; whenever the iteration count exceeds the cap it returns exactly 0;
and every returned value is either 0 or lies in `[valmin, valmax]` and is
the clamped Newton update of a point `x0` whose residual met the tolerance,
`|k - f x0| < 1e-5` (the tolerance is guaranteed at the iterate before the
final update, not at the returned point itself). -/
theorem C4_newton_amended (f fd : ℚ → ℚ) (k val0 valmin valmax : ℚ) (imax : ℕ) (v : ℚ)
    (hrange : valmin ≤ valmax)
    (h : newton f fd k val0 valmin valmax imax = some v) :
    v = 0 ∨ (valmin ≤ v ∧ v ≤ valmax ∧
      ∃ x0, fd x0 ≠ 0 ∧ pyabs (k - f x0) < 1 / 100000 ∧
        v = newtonClamp valmin valmax (x0 + (k - f x0) / fd x0)) := by
  rcases newtonGo_cases f fd k valmin valmax imax val0 1 v h with ⟨_, habs⟩ | h0 | h3
  · norm_num [pyabs] at habs
  · exact Or.inl h0
  · rcases h3 with ⟨x0, hd, hres, hv⟩
    refine Or.inr ⟨?_, ?_, x0, hd, hres, hv⟩
    · rw [hv]; exact (newtonClamp_mem valmin valmax _ hrange).1
    · rw [hv]; exact (newtonClamp_mem valmin valmax _ hrange).2

/-- Witness for C4_newton_amended: with `f = id`, constant derivative 1,
target 100 and starting value 200, `newton` returns `some 100` and the
amended description holds at that concrete run. -/
theorem C4_newton_amended_witness :
    (100 : ℚ) = 0 ∨ ((0 : ℚ) ≤ 100 ∧ (100 : ℚ) ≤ 3000 ∧
      ∃ x0, (fun _ : ℚ => (1 : ℚ)) x0 ≠ 0 ∧
        pyabs ((100 : ℚ) - (fun x : ℚ => x) x0) < 1 / 100000 ∧
        (100 : ℚ) = newtonClamp 0 3000 (x0 + ((100 : ℚ) - (fun x : ℚ => x) x0) /
          (fun _ : ℚ => (1 : ℚ)) x0)) :=
  C4_newton_amended (fun x => x) (fun _ => 1) 100 200 0 3000 10 100 (by norm_num)
    (by norm_num [newton, newtonGo, newtonClamp, pyabs])

/-- A bivariate spline lookup table (`scipy.interpolate.RectBivariateSpline`)
as the code uses it: `ev y x` is `func.ev(y, x)` and `evdx y x` is
`func.ev(y, x, dx=1)`, the first partial derivative along the first axis. -/
structure Spline where
  ev : ℚ → ℚ → ℚ
  evdx : ℚ → ℚ → ℚ

/-- Outcome of one tespy off-design solve as observed inside the `try` block
of `get_mass_flow` (powerplant.py lines 163-177 and 192-207): whether
`solve` raised an exception, the final residual `res[-1]`, the mass flow
read off the cached storage connection `self.cas_*` used by the range
checks, and the mass flow read off `imp_conns[storage_connection_*]`
returned on success. -/
structure MFSolve where
  raises : Bool
  residual : ℚ
  casm : ℚ
  connm : ℚ

/-- Attributes of a constructed `model` instance that `get_mass_flow` and
`get_power` read (powerplant.py lines 116-354). The `solve_*` and
`power_solve_*` fields are oracles standing for the external tespy solver:
they map the quantities the code sets before a solve (power and pressure,
or mass flow and pressure) to the quantities the code reads afterwards.
`cas_charge_set` and `cas_discharge_set` record whether the attributes
`self.cas_charge` and `self.cas_discharge` exist; they are created only by
the corresponding branch of `get_power` (lines 280-289 and 314-323), and
reading them while absent raises AttributeError. -/
structure Plant where
  p_min : ℚ
  p_max : ℚ
  method : String
  power_nominal_charge : ℚ
  power_nominal_discharge : ℚ
  massflow_min_rel : ℚ
  massflow_charge_max : ℚ
  massflow_discharge_max : ℚ
  cas_charge_set : Bool
  cas_discharge_set : Bool
  solve_charge : ℚ → ℚ → MFSolve
  solve_discharge : ℚ → ℚ → MFSolve
  power_solve_charge : ℚ → ℚ → ℚ
  power_solve_discharge : ℚ → ℚ → ℚ
  spline_charge : Spline
  spline_discharge : Spline

/-- Value of one `get_mass_flow` call: the tespy branches return the pair
`(mass_flow, power)`, the spline branch returns the bare scalar
`mass_flow` (line 233), and a raised exception that leaves the function is
an `error` result carrying the message. -/
inductive MFReturn where
  | pair (massFlow power : ℚ)
  | single (massFlow : ℚ)
  | error (msg : String)
deriving DecidableEq

/-- Value of one `get_power` call: a returned float, or a raised exception
carrying the message. -/
inductive PReturn where
  | val (power : ℚ)
  | error (msg : String)
deriving DecidableEq

/-- Body of `model.get_mass_flow(self, power, pressure, mode)`
(powerplant.py lines 116-236), parameterised by the function `gp` used for
the recursive `self.get_power` call of the above-maximum clamp branch.
Everything inside the `try` blocks that raises is caught by the bare
`except` and turned into `return 0, 0`: a raising solve, an AttributeError
from reading the absent `self.cas_*` attribute, and any exception escaping
the nested `get_power` call. The spline branch inverts the lookup table
with `newton` at the source defaults and returns the scalar root; a zero
spline derivative would raise ZeroDivisionError out of `newton`, which no
`try` protects here. -/
def gmf_body (pl : Plant) (gp : ℚ → ℚ → String → Option PReturn)
    (power pressure : ℚ) (mode : String) : Option MFReturn :=
  if pressure + 1 / 10000 < pl.p_min then some (.pair 0 0)
  else if pressure - 1 / 10000 > pl.p_max then some (.pair 0 0)
  else if pl.method = "tespy" then
    if mode = "charging" then
      if pyabs power < pyabs (pl.power_nominal_charge / 100) then some (.pair 0 0)
      else
        let s := pl.solve_charge power pressure
        if s.raises then some (.pair 0 0)
        else if s.residual > 1 / 1000 then some (.pair 0 0)
        else if pl.cas_charge_set = false then some (.pair 0 0)
        else if s.casm < pl.massflow_min_rel * pl.massflow_charge_max then some (.pair 0 0)
        else if s.casm > pl.massflow_charge_max then
          match gp pl.massflow_charge_max pressure mode with
          | none => none
          | some (.error _) => some (.pair 0 0)
          | some (.val q) => some (.pair pl.massflow_charge_max q)
        else some (.pair s.connm power)
    else if mode = "discharging" then
      if pyabs power < pyabs (pl.power_nominal_discharge / 100) then some (.pair 0 0)
      else
        let s := pl.solve_discharge power pressure
        if s.raises then some (.pair 0 0)
        else if s.residual > 1 / 1000 then some (.pair 0 0)
        else if pl.cas_discharge_set = false then some (.pair 0 0)
        else if s.casm < pl.massflow_min_rel * pl.massflow_discharge_max then some (.pair 0 0)
        else if s.casm > pl.massflow_discharge_max then
          match gp pl.massflow_discharge_max pressure mode with
          | none => none
          | some (.error _) => some (.pair 0 0)
          | some (.val q) => some (.pair pl.massflow_discharge_max q)
        else some (.pair s.connm power)
    else some (.error ("Mode must be charging or discharging."))
  else if pl.method = "spline" then
    if mode = "charging" then
      match newton (reverse_2d pl.spline_charge.ev pressure power)
          (reverse_2d_deriv pl.spline_charge.evdx pressure) 0 200 0 3000 10 with
      | none => some (.error ("ZeroDivisionError"))
      | some m => some (.single m)
    else if mode = "discharging" then
      match newton (reverse_2d pl.spline_discharge.ev pressure (-power))
          (reverse_2d_deriv pl.spline_discharge.evdx pressure) 0 200 0 3000 10 with
      | none => some (.error ("ZeroDivisionError"))
      | some m => some (.single m)
    else some (.error ("Mode must be charging or discharging."))
  else some (.error ("Method must be tespy or spline."))

/-- Body of `model.get_power(self, massflow, pressure, mode)` (powerplant.py
lines 238-354), parameterised by the functions `gmf` and `gp` used for the
calls `self.get_mass_flow` (spline forward check) and `self.get_power`
(above-maximum clamp recursion). The tespy in-range case sets mass flow and
pressure on the interface connection and reads the bus power back from the
solver oracle. The spline case evaluates the surface, re-inverts through
`get_mass_flow` and accepts only if the relative error is below `1e-5`;
`massflow = 0` makes that relative error a ZeroDivisionError, and no `try`
protects any of this, so nested exceptions propagate. -/
def gp_body (pl : Plant) (gmf : ℚ → ℚ → String → Option MFReturn)
    (gp : ℚ → ℚ → String → Option PReturn)
    (massflow pressure : ℚ) (mode : String) : Option PReturn :=
  if pressure + 1 / 10000 < pl.p_min then some (.val 0)
  else if pressure - 1 / 10000 > pl.p_max then some (.val 0)
  else if pl.method = "tespy" then
    if mode = "charging" then
      if massflow < pl.massflow_min_rel * pl.massflow_charge_max - 1 / 10000 then some (.val 0)
      else if massflow > pl.massflow_charge_max + 1 / 10000 then
        gp pl.massflow_charge_max pressure mode
      else some (.val (pl.power_solve_charge massflow pressure))
    else if mode = "discharging" then
      if massflow < pl.massflow_min_rel * pl.massflow_discharge_max - 1 / 10000 then
        some (.val 0)
      else if massflow > pl.massflow_discharge_max + 1 / 10000 then
        gp pl.massflow_discharge_max pressure mode
      else some (.val (pl.power_solve_discharge massflow pressure))
    else some (.error ("Mode must be charge or discharge."))
  else if pl.method = "spline" then
    if mode = "charging" then
      match gmf (pl.spline_charge.ev massflow pressure) pressure mode with
      | none => none
      | some (.error e) => some (.error e)
      | some (.pair _ _) => some (.error ("TypeError"))
      | some (.single m) =>
        if massflow = 0 then some (.error ("ZeroDivisionError"))
        else if pyabs ((m - massflow) / massflow) < 1 / 100000 then
          some (.val (pl.spline_charge.ev massflow pressure))
        else some (.val 0)
    else if mode = "discharging" then
      match gmf (pl.spline_discharge.ev massflow pressure) pressure mode with
      | none => none
      | some (.error e) => some (.error e)
      | some (.pair _ _) => some (.error ("TypeError"))
      | some (.single m) =>
        if massflow = 0 then some (.error ("ZeroDivisionError"))
        else if pyabs ((m - massflow) / massflow) < 1 / 100000 then
          some (.val (pl.spline_discharge.ev massflow pressure))
        else some (.val 0)
    else some (.error ("Mode must be charge or discharge."))
  else some (.error ("Method must be tespy or spline."))

/-- The pair `(get_mass_flow, get_power)` at a given recursion depth: `fuel`
bounds how many nested self-calls may still happen, and a call with no fuel
left is `none`. The actual Python recursion is bounded (the clamp branch
calls `get_power` at the maximum mass flow, which never re-enters the clamp
branch), so every claim below holds from a small concrete fuel on. -/
def pp (pl : Plant) : ℕ →
    (ℚ → ℚ → String → Option MFReturn) × (ℚ → ℚ → String → Option PReturn)
  | 0 => (fun _ _ _ => none, fun _ _ _ => none)
  | fuel + 1 => (gmf_body pl (pp pl fuel).2, gp_body pl (pp pl fuel).1 (pp pl fuel).2)

/-- `model.get_mass_flow` at recursion-depth budget `fuel`. -/
def get_mass_flow (pl : Plant) (fuel : ℕ) (power pressure : ℚ) (mode : String) :
    Option MFReturn := (pp pl fuel).1 power pressure mode

/-- `model.get_power` at recursion-depth budget `fuel`. -/
def get_power (pl : Plant) (fuel : ℕ) (massflow pressure : ℚ) (mode : String) :
    Option PReturn := (pp pl fuel).2 massflow pressure mode

theorem get_mass_flow_succ (pl : Plant) (fuel : ℕ) (power pressure : ℚ) (mode : String) :
    get_mass_flow pl (fuel + 1) power pressure mode =
      gmf_body pl (fun a b c => get_power pl fuel a b c) power pressure mode := rfl

theorem get_power_succ (pl : Plant) (fuel : ℕ) (massflow pressure : ℚ) (mode : String) :
    get_power pl (fuel + 1) massflow pressure mode =
      gp_body pl (fun a b c => get_mass_flow pl fuel a b c)
        (fun a b c => get_power pl fuel a b c) massflow pressure mode := rfl

/-- The nominal power of a mode (`power_nominal_charge` or
`power_nominal_discharge`). -/
def nominal_for (pl : Plant) (mode : String) : ℚ :=
  if mode = "charging" then pl.power_nominal_charge else pl.power_nominal_discharge

/-- The maximum mass flow of a mode (`massflow_charge_max` or
`massflow_discharge_max`). -/
def mmax_for (pl : Plant) (mode : String) : ℚ :=
  if mode = "charging" then pl.massflow_charge_max else pl.massflow_discharge_max

/-- The solve oracle of a mode as used by `get_mass_flow`. -/
def solve_for (pl : Plant) (mode : String) : ℚ → ℚ → MFSolve :=
  if mode = "charging" then pl.solve_charge else pl.solve_discharge

/-- Whether the cached storage connection attribute of a mode exists. -/
def cas_set_for (pl : Plant) (mode : String) : Bool :=
  if mode = "charging" then pl.cas_charge_set else pl.cas_discharge_set

/-- Whether a `get_mass_flow` result is a raised exception. -/
def MFReturn.isError : MFReturn → Bool
  | .error _ => true
  | _ => false

/-- Whether a `get_power` result is a raised exception. -/
def PReturn.isError : PReturn → Bool
  | .error _ => true
  | _ => false

/-- A concrete plant configured for the tespy method, with a solver oracle
that always converges (residual 0) to a storage mass flow of 20, above the
charging maximum of 10, and a discharging mass flow of 4, inside the range
`[0.8, 8]`. -/
def tespyPlant : Plant where
  p_min := 50
  p_max := 150
  method := "tespy"
  power_nominal_charge := -1000
  power_nominal_discharge := 900
  massflow_min_rel := 1 / 10
  massflow_charge_max := 10
  massflow_discharge_max := 8
  cas_charge_set := true
  cas_discharge_set := true
  solve_charge := fun _ _ => { raises := false, residual := 0, casm := 20, connm := 20 }
  solve_discharge := fun _ _ => { raises := false, residual := 0, casm := 4, connm := 4 }
  power_solve_charge := fun _ _ => -900
  power_solve_discharge := fun _ _ => 700
  spline_charge := { ev := fun y _ => y, evdx := fun _ _ => 1 }
  spline_discharge := { ev := fun y _ => y, evdx := fun _ _ => 1 }

/-- The same plant configured for the spline method; its lookup surface is
`ev(m, p) = m`, so inverting it at target power `w` yields mass flow `w`. -/
def splinePlant : Plant := { tespyPlant with method := "spline" }

/-- The tespy plant with a solver oracle that converges to a storage mass
flow of `1/2`, below the charging minimum threshold `0.1 * 10 = 1`. -/
def tespyPlantLow : Plant :=
  { tespyPlant with
    solve_charge := fun _ _ => { raises := false, residual := 0, casm := 1 / 2, connm := 1 / 2 } }

/-- Claim C2. For every power, mass flow and mode string, a pressure below
`p_min - 1e-4` or above `p_max + 1e-4` makes `get_mass_flow` return `(0, 0)`
and `get_power` return `0`, before the method or the mode is even looked at:
the theorem holds for an arbitrary plant (any method string, any solver
oracle) and an arbitrary mode string. -/
theorem C2_pressure_out_of_range (pl : Plant) (fuel : ℕ) (power massflow pressure : ℚ)
    (mode : String)
    (h : pressure < pl.p_min - 1 / 10000 ∨ pressure > pl.p_max + 1 / 10000) :
    get_mass_flow pl (fuel + 1) power pressure mode = some (.pair 0 0) ∧
    get_power pl (fuel + 1) massflow pressure mode = some (.val 0) := by
  rw [get_mass_flow_succ, get_power_succ]
  unfold gmf_body gp_body
  by_cases h1 : pressure + 1 / 10000 < pl.p_min
  · rw [if_pos h1, if_pos h1]
    exact ⟨rfl, rfl⟩
  · have h2 : pressure - 1 / 10000 > pl.p_max := by
      rcases h with h | h
      · exact absurd (by linarith : pressure + 1 / 10000 < pl.p_min) h1
      · linarith
    rw [if_neg h1, if_pos h2, if_neg h1, if_pos h2]
    exact ⟨rfl, rfl⟩

/-- Witness for C2_pressure_out_of_range: the concrete tespy plant with
pressure 10 (below the minimum 50) and the invalid mode string returns the
zero results from both entry points. -/
theorem C2_witness :
    get_mass_flow tespyPlant 1 123 10 ("foo") = some (.pair 0 0) ∧
    get_power tespyPlant 1 5 10 ("foo") = some (.val 0) :=
  C2_pressure_out_of_range tespyPlant 0 123 5 10 ("foo")
    (Or.inl (by norm_num [tespyPlant]))

/-- Claim C6, counterexample. With pressure 10 below the minimum 50 and the
invalid mode string, both entry points return their zero results and no
ValueError is raised: the pressure check precedes the mode check, refuting
the claim that an invalid mode always raises. -/
theorem C6_counterexample :
    get_mass_flow tespyPlant 1 123 10 ("badmode") = some (.pair 0 0) ∧
    get_power tespyPlant 1 5 10 ("badmode") = some (.val 0) ∧
    MFReturn.isError (.pair 0 0) = false ∧ PReturn.isError (.val 0) = false := by
  refine ⟨?_, ?_, rfl, rfl⟩ <;>
    norm_num [get_mass_flow, get_power, pp, gmf_body, gp_body, tespyPlant]

/-- Claim C6, amended. When the pressure passes both range checks and the
configured method is tespy or spline, a mode outside the two valid strings
raises ValueError in both entry points (with the respective source
messages); when the pressure is out of range, both entry points instead
return their zero results without raising, for any mode string (see the
counterexample). -/
theorem C6_amended (pl : Plant) (fuel : ℕ) (power massflow pressure : ℚ) (mode : String)
    (hmethod : pl.method = "tespy" ∨ pl.method = "spline")
    (hp1 : ¬ (pressure + 1 / 10000 < pl.p_min))
    (hp2 : ¬ (pressure - 1 / 10000 > pl.p_max))
    (hc : mode ≠ "charging") (hd : mode ≠ "discharging") :
    get_mass_flow pl (fuel + 1) power pressure mode =
      some (.error ("Mode must be charging or discharging.")) ∧
    get_power pl (fuel + 1) massflow pressure mode =
      some (.error ("Mode must be charge or discharge.")) := by
  constructor
  · rw [get_mass_flow_succ]
    unfold gmf_body
    rw [if_neg hp1, if_neg hp2]
    rcases hmethod with h | h
    · rw [if_pos h, if_neg hc, if_neg hd]
    · have ht : ¬ (pl.method = "tespy") := by rw [h]; simp
      rw [if_neg ht, if_pos h, if_neg hc, if_neg hd]
  · rw [get_power_succ]
    unfold gp_body
    rw [if_neg hp1, if_neg hp2]
    rcases hmethod with h | h
    · rw [if_pos h, if_neg hc, if_neg hd]
    · have ht : ¬ (pl.method = "tespy") := by rw [h]; simp
      rw [if_neg ht, if_pos h, if_neg hc, if_neg hd]

/-- Witness for C6_amended: the concrete tespy plant with in-range pressure
100 and the invalid mode string raises the two source ValueError messages. -/
theorem C6_amended_witness :
    get_mass_flow tespyPlant 1 123 100 ("xx") =
      some (.error ("Mode must be charging or discharging.")) ∧
    get_power tespyPlant 1 5 100 ("xx") =
      some (.error ("Mode must be charge or discharge.")) :=
  C6_amended tespyPlant 0 123 5 100 ("xx") (Or.inl rfl)
    (by norm_num [tespyPlant]) (by norm_num [tespyPlant]) (by simp) (by simp)

/-- Claim C7. Under the tespy method, for either valid mode, an in-range
pressure and a scheduled power whose magnitude is below one percent of the
mode nominal power short-circuit `get_mass_flow` to `(0, 0)`: the result is
this constant for every solver oracle, so the external solver is never
consulted. -/
theorem C7_small_power_short_circuit (pl : Plant) (fuel : ℕ) (power pressure : ℚ)
    (mode : String) (hm : pl.method = "tespy")
    (hmode : mode = "charging" ∨ mode = "discharging")
    (hp1 : ¬ (pressure + 1 / 10000 < pl.p_min))
    (hp2 : ¬ (pressure - 1 / 10000 > pl.p_max))
    (hpow : pyabs power < pyabs (nominal_for pl mode / 100)) :
    get_mass_flow pl (fuel + 1) power pressure mode = some (.pair 0 0) := by
  rw [get_mass_flow_succ]
  unfold gmf_body
  rw [if_neg hp1, if_neg hp2, if_pos hm]
  rcases hmode with h | h <;> subst h
  · rw [if_pos rfl, if_pos (by simpa [nominal_for] using hpow)]
  · rw [if_neg (by simp), if_pos rfl, if_pos (by simpa [nominal_for] using hpow)]

/-- Witness for C7_small_power_short_circuit: the concrete tespy plant with
scheduled power -5 (one percent of nominal is 10) and pressure 100 returns
`(0, 0)` although its solver oracle would report a converged mass flow. -/
theorem C7_witness :
    get_mass_flow tespyPlant 1 (-5) 100 ("charging") = some (.pair 0 0) :=
  C7_small_power_short_circuit tespyPlant 0 (-5) 100 ("charging") rfl (Or.inl rfl)
    (by norm_num [tespyPlant]) (by norm_num [tespyPlant])
    (by norm_num [pyabs, nominal_for, tespyPlant])

/-- Claim C10. Under the tespy method in charging mode, while the attribute
`self.cas_charge` does not exist (it is only created by a charging
`get_power` call), every `get_mass_flow` call with in-range pressure and
power at least one percent of nominal returns `(0, 0)`, whatever the solver
does: if the solve raises or leaves a residual above `1e-3` the failure
branches fire, and otherwise the AttributeError from reading
`self.cas_charge` is swallowed by the bare `except` clause, indistinguishable
from solver non-convergence. -/
theorem C10_unset_cas_charge (pl : Plant) (fuel : ℕ) (power pressure : ℚ)
    (hm : pl.method = "tespy") (hcas : pl.cas_charge_set = false)
    (hp1 : ¬ (pressure + 1 / 10000 < pl.p_min))
    (hp2 : ¬ (pressure - 1 / 10000 > pl.p_max))
    (hpow : ¬ (pyabs power < pyabs (pl.power_nominal_charge / 100))) :
    get_mass_flow pl (fuel + 1) power pressure ("charging") = some (.pair 0 0) := by
  rw [get_mass_flow_succ]
  unfold gmf_body
  rw [if_neg hp1, if_neg hp2, if_pos hm, if_pos rfl, if_neg hpow]
  dsimp only
  by_cases hr : (pl.solve_charge power pressure).raises = true
  · rw [if_pos hr]
  · rw [if_neg hr]
    by_cases hres : (pl.solve_charge power pressure).residual > 1 / 1000
    · rw [if_pos hres]
    · rw [if_neg hres, if_pos hcas]

/-- Witness for C10_unset_cas_charge: the concrete tespy plant with the
`cas_charge` attribute absent returns `(0, 0)` at power -800 and pressure
100 even though its solver oracle converges with residual 0. -/
theorem C10_witness :
    get_mass_flow { tespyPlant with cas_charge_set := false } 1 (-800) 100 ("charging") =
      some (.pair 0 0) :=
  C10_unset_cas_charge { tespyPlant with cas_charge_set := false } 0 (-800) 100 rfl rfl
    (by norm_num [tespyPlant]) (by norm_num [tespyPlant])
    (by norm_num [pyabs, tespyPlant])

/-- At the maximum mass flow of a mode, a tespy `get_power` call never
recurses: its value is a `some` that does not depend on the remaining fuel.
This is the heart of the bounded-recursion argument for the clamp branch. -/
theorem gp_mmax_fuel_indep (pl : Plant) (n : ℕ) (pressure : ℚ) (mode : String)
    (hm : pl.method = "tespy") (hmode : mode = "charging" ∨ mode = "discharging")
    (hp1 : ¬ (pressure + 1 / 10000 < pl.p_min))
    (hp2 : ¬ (pressure - 1 / 10000 > pl.p_max)) :
    get_power pl (n + 1) (mmax_for pl mode) pressure mode =
      get_power pl 1 (mmax_for pl mode) pressure mode ∧
    (get_power pl 1 (mmax_for pl mode) pressure mode).isSome = true := by
  rcases hmode with h | h <;> subst h
  · have hmm : mmax_for pl ("charging") = pl.massflow_charge_max := by simp [mmax_for]
    rw [hmm]
    have hgen : ∀ m : ℕ, get_power pl (m + 1) pl.massflow_charge_max pressure ("charging") =
        (if pl.massflow_charge_max < pl.massflow_min_rel * pl.massflow_charge_max - 1 / 10000
          then some (.val 0)
          else some (.val (pl.power_solve_charge pl.massflow_charge_max pressure))) := by
      intro m
      rw [get_power_succ]
      unfold gp_body
      rw [if_neg hp1, if_neg hp2, if_pos hm, if_pos rfl,
        if_neg (by linarith :
          ¬ (pl.massflow_charge_max > pl.massflow_charge_max + 1 / 10000))]
    have h1 := hgen 0
    norm_num at h1
    rw [hgen n, h1]
    refine ⟨rfl, ?_⟩
    split_ifs <;> rfl
  · have hmm : mmax_for pl ("discharging") = pl.massflow_discharge_max := by simp [mmax_for]
    rw [hmm]
    have hgen : ∀ m : ℕ, get_power pl (m + 1) pl.massflow_discharge_max pressure
        ("discharging") =
        (if pl.massflow_discharge_max <
            pl.massflow_min_rel * pl.massflow_discharge_max - 1 / 10000
          then some (.val 0)
          else some (.val (pl.power_solve_discharge pl.massflow_discharge_max pressure))) := by
      intro m
      rw [get_power_succ]
      unfold gp_body
      rw [if_neg hp1, if_neg hp2, if_pos hm, if_neg (by simp), if_pos rfl,
        if_neg (by linarith :
          ¬ (pl.massflow_discharge_max > pl.massflow_discharge_max + 1 / 10000))]
    have h1 := hgen 0
    norm_num at h1
    rw [hgen n, h1]
    refine ⟨rfl, ?_⟩
    split_ifs <;> rfl

/-- Claim C8. Under the tespy method, for either mode and any mass flow
above the mode maximum plus `1e-4`, with in-range pressure and a
configuration satisfying the spec invariants (`massflow_min_rel ≤ 1` and a
nonnegative maximum), the ceiling clamp recurses exactly once: the call
equals `get_power` at the maximum mass flow, and that inner call succeeds
with a single unit of recursion budget, so it performs no further self-call
(the maximum is never above `maximum + 1e-4`). -/
theorem C8_clamp_recurses_once (pl : Plant) (fuel : ℕ) (massflow pressure : ℚ) (mode : String)
    (hm : pl.method = "tespy") (hmode : mode = "charging" ∨ mode = "discharging")
    (hp1 : ¬ (pressure + 1 / 10000 < pl.p_min))
    (hp2 : ¬ (pressure - 1 / 10000 > pl.p_max))
    (hrel : pl.massflow_min_rel ≤ 1) (hmax0 : 0 ≤ mmax_for pl mode)
    (hover : massflow > mmax_for pl mode + 1 / 10000) :
    get_power pl (fuel + 2) massflow pressure mode =
      get_power pl 1 (mmax_for pl mode) pressure mode ∧
    (get_power pl 1 (mmax_for pl mode) pressure mode).isSome = true := by
  obtain ⟨hind, hsome⟩ := gp_mmax_fuel_indep pl fuel pressure mode hm hmode hp1 hp2
  refine ⟨?_, hsome⟩
  rw [← hind]
  rcases hmode with h | h <;> subst h
  · have hmm : mmax_for pl ("charging") = pl.massflow_charge_max := by simp [mmax_for]
    rw [hmm] at hover hmax0 ⊢
    rw [get_power_succ]
    unfold gp_body
    have hle : pl.massflow_min_rel * pl.massflow_charge_max ≤ pl.massflow_charge_max :=
      mul_le_of_le_one_left hmax0 hrel
    rw [if_neg hp1, if_neg hp2, if_pos hm, if_pos rfl,
      if_neg (by linarith :
        ¬ (massflow < pl.massflow_min_rel * pl.massflow_charge_max - 1 / 10000)),
      if_pos hover]
  · have hmm : mmax_for pl ("discharging") = pl.massflow_discharge_max := by simp [mmax_for]
    rw [hmm] at hover hmax0 ⊢
    rw [get_power_succ]
    unfold gp_body
    have hle : pl.massflow_min_rel * pl.massflow_discharge_max ≤ pl.massflow_discharge_max :=
      mul_le_of_le_one_left hmax0 hrel
    rw [if_neg hp1, if_neg hp2, if_pos hm, if_neg (by simp), if_pos rfl,
      if_neg (by linarith :
        ¬ (massflow < pl.massflow_min_rel * pl.massflow_discharge_max - 1 / 10000)),
      if_pos hover]

/-- Witness for C8_clamp_recurses_once: the concrete tespy plant asked for
mass flow 50, far above the charging maximum 10, behaves exactly as the
inner call at the maximum, and that inner call succeeds on one unit of
recursion budget. -/
theorem C8_witness :
    get_power tespyPlant 2 50 100 ("charging") =
      get_power tespyPlant 1 (mmax_for tespyPlant ("charging")) 100 ("charging") ∧
    (get_power tespyPlant 1 (mmax_for tespyPlant ("charging")) 100 ("charging")).isSome =
      true :=
  C8_clamp_recurses_once tespyPlant 0 50 100 ("charging") rfl (Or.inl rfl)
    (by norm_num [tespyPlant]) (by norm_num [tespyPlant]) (by norm_num [tespyPlant])
    (by norm_num [mmax_for, tespyPlant]) (by norm_num [mmax_for, tespyPlant])

/-- Claim C1, counterexample. Under the spline strategy the clamp is never
applied: with the identity lookup surface, scheduled power 50 and pressure
100, the root-finder resolves the raw mass flow 50, which exceeds the
charging maximum 10, yet `get_mass_flow` returns the bare scalar 50 —
neither clamped to the maximum nor paired with a recomputed power. -/
theorem C1_counterexample :
    get_mass_flow splinePlant 1 50 100 ("charging") = some (.single 50) ∧
    splinePlant.massflow_charge_max = 10 ∧ (50 : ℚ) ≠ 10 := by
  refine ⟨?_, by norm_num [splinePlant, tespyPlant], by norm_num⟩
  have hms : (("spline" : String) = "tespy") = False := by simp
  norm_num [hms, get_mass_flow, pp, gmf_body, splinePlant, tespyPlant, newton, newtonGo,
    newtonClamp, pyabs, reverse_2d, reverse_2d_deriv]

/-- Claim C1, amended. The clamp-and-recompute policy holds on the tespy
strategy path only: for either mode, if the pressure is in range, the power
is at least one percent of nominal, the solve converges (no exception,
residual at most `1e-3`), the cached storage connection exists, and the
converged storage mass flow is above the mode maximum (and not below the
minimum threshold), then `get_mass_flow` returns the pair of the maximum
mass flow and exactly the value of `get_power` at that maximum. Under the
spline strategy no clamp is applied (see the counterexample). -/
theorem C1_amended (pl : Plant) (fuel : ℕ) (power pressure : ℚ) (mode : String)
    (hm : pl.method = "tespy") (hmode : mode = "charging" ∨ mode = "discharging")
    (hp1 : ¬ (pressure + 1 / 10000 < pl.p_min))
    (hp2 : ¬ (pressure - 1 / 10000 > pl.p_max))
    (hpow : ¬ (pyabs power < pyabs (nominal_for pl mode / 100)))
    (hraise : (solve_for pl mode power pressure).raises = false)
    (hres : ¬ ((solve_for pl mode power pressure).residual > 1 / 1000))
    (hcas : cas_set_for pl mode = true)
    (hthr : ¬ ((solve_for pl mode power pressure).casm <
      pl.massflow_min_rel * mmax_for pl mode))
    (hover : (solve_for pl mode power pressure).casm > mmax_for pl mode) :
    ∃ q, get_power pl (fuel + 1) (mmax_for pl mode) pressure mode = some (.val q) ∧
      get_mass_flow pl (fuel + 2) power pressure mode =
        some (.pair (mmax_for pl mode) q) := by
  rcases hmode with h | h <;> subst h
  · have hmm : mmax_for pl ("charging") = pl.massflow_charge_max := by simp [mmax_for]
    have hnom : nominal_for pl ("charging") = pl.power_nominal_charge := by simp [nominal_for]
    have hsol : solve_for pl ("charging") = pl.solve_charge := by simp [solve_for]
    have hcs : cas_set_for pl ("charging") = pl.cas_charge_set := by simp [cas_set_for]
    rw [hnom] at hpow
    rw [hsol] at hraise hres hthr hover
    rw [hcs] at hcas
    rw [hmm] at hthr hover ⊢
    have hgp : ∃ q, get_power pl (fuel + 1) pl.massflow_charge_max pressure ("charging") =
        some (.val q) := by
      rw [get_power_succ]
      unfold gp_body
      rw [if_neg hp1, if_neg hp2, if_pos hm, if_pos rfl,
        if_neg (by linarith :
          ¬ (pl.massflow_charge_max > pl.massflow_charge_max + 1 / 10000))]
      by_cases hbm : pl.massflow_charge_max <
          pl.massflow_min_rel * pl.massflow_charge_max - 1 / 10000
      · exact ⟨0, by rw [if_pos hbm]⟩
      · exact ⟨pl.power_solve_charge pl.massflow_charge_max pressure, by rw [if_neg hbm]⟩
    rcases hgp with ⟨q, hgp⟩
    refine ⟨q, hgp, ?_⟩
    rw [get_mass_flow_succ]
    unfold gmf_body
    rw [if_neg hp1, if_neg hp2, if_pos hm, if_pos rfl, if_neg hpow]
    dsimp only
    rw [if_neg (by simp [hraise]), if_neg hres, if_neg (by simp [hcas]), if_neg hthr,
      if_pos hover, hgp]
  · have hmm : mmax_for pl ("discharging") = pl.massflow_discharge_max := by simp [mmax_for]
    have hnom : nominal_for pl ("discharging") = pl.power_nominal_discharge := by
      simp [nominal_for]
    have hsol : solve_for pl ("discharging") = pl.solve_discharge := by simp [solve_for]
    have hcs : cas_set_for pl ("discharging") = pl.cas_discharge_set := by simp [cas_set_for]
    rw [hnom] at hpow
    rw [hsol] at hraise hres hthr hover
    rw [hcs] at hcas
    rw [hmm] at hthr hover ⊢
    have hgp : ∃ q, get_power pl (fuel + 1) pl.massflow_discharge_max pressure
        ("discharging") = some (.val q) := by
      rw [get_power_succ]
      unfold gp_body
      rw [if_neg hp1, if_neg hp2, if_pos hm, if_neg (by simp), if_pos rfl,
        if_neg (by linarith :
          ¬ (pl.massflow_discharge_max > pl.massflow_discharge_max + 1 / 10000))]
      by_cases hbm : pl.massflow_discharge_max <
          pl.massflow_min_rel * pl.massflow_discharge_max - 1 / 10000
      · exact ⟨0, by rw [if_pos hbm]⟩
      · exact ⟨pl.power_solve_discharge pl.massflow_discharge_max pressure, by
          rw [if_neg hbm]⟩
    rcases hgp with ⟨q, hgp⟩
    refine ⟨q, hgp, ?_⟩
    rw [get_mass_flow_succ]
    unfold gmf_body
    rw [if_neg hp1, if_neg hp2, if_pos hm, if_neg (by simp), if_pos rfl, if_neg hpow]
    dsimp only
    rw [if_neg (by simp [hraise]), if_neg hres, if_neg (by simp [hcas]), if_neg hthr,
      if_pos hover, hgp]

/-- Witness for C1_amended: the concrete tespy plant at power -800 and
pressure 100 sees a converged storage mass flow of 20, above the charging
maximum 10, and returns the pair of the maximum and the recomputed power. -/
theorem C1_amended_witness :
    ∃ q, get_power tespyPlant 1 (mmax_for tespyPlant ("charging")) 100 ("charging") =
        some (.val q) ∧
      get_mass_flow tespyPlant 2 (-800) 100 ("charging") =
        some (.pair (mmax_for tespyPlant ("charging")) q) :=
  C1_amended tespyPlant 0 (-800) 100 ("charging") rfl (Or.inl rfl)
    (by norm_num [tespyPlant]) (by norm_num [tespyPlant])
    (by norm_num [pyabs, nominal_for, tespyPlant])
    (by norm_num [solve_for, tespyPlant]) (by norm_num [solve_for, tespyPlant])
    (by norm_num [cas_set_for, tespyPlant])
    (by norm_num [solve_for, mmax_for, tespyPlant])
    (by norm_num [solve_for, mmax_for, tespyPlant])

/-- Claim C5, counterexample. Under the spline strategy no minimum-threshold
rejection happens: with the identity lookup surface, scheduled power `1/2`
resolves a raw mass flow of `1/2`, whose magnitude is below the threshold
`massflow_min_rel * massflow_charge_max = 1`, yet `get_mass_flow` returns
the bare scalar `1/2` instead of the rejected pair `(0, 0)`. -/
theorem C5_counterexample :
    get_mass_flow splinePlant 1 (1 / 2) 100 ("charging") = some (.single (1 / 2)) ∧
    MFReturn.single (1 / 2) ≠ MFReturn.pair 0 0 ∧
    pyabs (1 / 2) < splinePlant.massflow_min_rel * splinePlant.massflow_charge_max := by
  refine ⟨?_, by simp, by norm_num [pyabs, splinePlant, tespyPlant]⟩
  have hms : (("spline" : String) = "tespy") = False := by simp
  norm_num [hms, get_mass_flow, pp, gmf_body, splinePlant, tespyPlant, newton, newtonGo,
    newtonClamp, pyabs, reverse_2d, reverse_2d_deriv]

/-- Claim C5, amended. The minimum-threshold rejection holds on the tespy
strategy path only: for either mode, if the pressure is in range, the power
is at least one percent of nominal, the solve converges, the cached storage
connection exists, and the converged storage mass flow is below
`massflow_min_rel` times the mode maximum (the source compares the raw
value, not its magnitude), then `get_mass_flow` returns `(0, 0)`. Under the
spline strategy no threshold check is applied (see the counterexample). -/
theorem C5_amended (pl : Plant) (fuel : ℕ) (power pressure : ℚ) (mode : String)
    (hm : pl.method = "tespy") (hmode : mode = "charging" ∨ mode = "discharging")
    (hp1 : ¬ (pressure + 1 / 10000 < pl.p_min))
    (hp2 : ¬ (pressure - 1 / 10000 > pl.p_max))
    (hpow : ¬ (pyabs power < pyabs (nominal_for pl mode / 100)))
    (hraise : (solve_for pl mode power pressure).raises = false)
    (hres : ¬ ((solve_for pl mode power pressure).residual > 1 / 1000))
    (hcas : cas_set_for pl mode = true)
    (hthr : (solve_for pl mode power pressure).casm <
      pl.massflow_min_rel * mmax_for pl mode) :
    get_mass_flow pl (fuel + 1) power pressure mode = some (.pair 0 0) := by
  rcases hmode with h | h <;> subst h
  · have hnom : nominal_for pl ("charging") = pl.power_nominal_charge := by simp [nominal_for]
    have hsol : solve_for pl ("charging") = pl.solve_charge := by simp [solve_for]
    have hcs : cas_set_for pl ("charging") = pl.cas_charge_set := by simp [cas_set_for]
    have hmm : mmax_for pl ("charging") = pl.massflow_charge_max := by simp [mmax_for]
    rw [hnom] at hpow
    rw [hsol, hmm] at hthr
    rw [hsol] at hraise hres
    rw [hcs] at hcas
    rw [get_mass_flow_succ]
    unfold gmf_body
    rw [if_neg hp1, if_neg hp2, if_pos hm, if_pos rfl, if_neg hpow]
    dsimp only
    rw [if_neg (by simp [hraise]), if_neg hres, if_neg (by simp [hcas]), if_pos hthr]
  · have hnom : nominal_for pl ("discharging") = pl.power_nominal_discharge := by
      simp [nominal_for]
    have hsol : solve_for pl ("discharging") = pl.solve_discharge := by simp [solve_for]
    have hcs : cas_set_for pl ("discharging") = pl.cas_discharge_set := by simp [cas_set_for]
    have hmm : mmax_for pl ("discharging") = pl.massflow_discharge_max := by simp [mmax_for]
    rw [hnom] at hpow
    rw [hsol, hmm] at hthr
    rw [hsol] at hraise hres
    rw [hcs] at hcas
    rw [get_mass_flow_succ]
    unfold gmf_body
    rw [if_neg hp1, if_neg hp2, if_pos hm, if_neg (by simp), if_pos rfl, if_neg hpow]
    dsimp only
    rw [if_neg (by simp [hraise]), if_neg hres, if_neg (by simp [hcas]), if_pos hthr]

/-- Witness for C5_amended: the tespy plant whose solver converges to the
storage mass flow `1/2`, below the minimum threshold 1, rejects the schedule
with `(0, 0)` at power -800 and pressure 100. -/
theorem C5_amended_witness :
    get_mass_flow tespyPlantLow 1 (-800) 100 ("charging") = some (.pair 0 0) :=
  C5_amended tespyPlantLow 0 (-800) 100 ("charging") rfl (Or.inl rfl)
    (by norm_num [tespyPlantLow, tespyPlant]) (by norm_num [tespyPlantLow, tespyPlant])
    (by norm_num [pyabs, nominal_for, tespyPlantLow, tespyPlant])
    (by norm_num [solve_for, tespyPlantLow, tespyPlant])
    (by norm_num [solve_for, tespyPlantLow, tespyPlant])
    (by norm_num [cas_set_for, tespyPlantLow, tespyPlant])
    (by norm_num [solve_for, mmax_for, tespyPlantLow, tespyPlant])

/-- One tespy network as touched by `power_plant_layout` (powerplant.py
lines 91-114): the power-bus target, the storage-connection pressure and
mass flow, and the borehole pipe length. `none` models an unset attribute
or an `np.nan` (mass flow left free). -/
structure Net where
  busP : Option ℚ
  connP : Option ℚ
  connM : Option ℚ
  pipeL : Option ℚ
deriving DecidableEq

/-- Configuration read by `power_plant_layout`, with the two design-mode
solves of the external solver abstracted as oracles mapping the fully
parameterised network to the converged storage-connection mass flow. -/
structure LayoutCfg where
  power_nominal_charge : ℚ
  power_nominal_discharge : ℚ
  p_nom : ℚ
  min_well_depth : ℚ
  solve_design_charge : Net → ℚ
  solve_design_discharge : Net → ℚ

/-- State touched by `power_plant_layout`: the two networks and the saved
reference states, most recent first, keyed by the path given to
`nw.save(...)`. -/
structure LayoutState where
  tespy_charge : Net
  tespy_discharge : Net
  saves : List (String × Net)

/-- The method `model.power_plant_layout` (powerplant.py lines 91-114),
statement by statement. Charging block (lines 97-101): set the
charge-network bus power, connection pressure (mass flow freed), and pipe
length, solve in design mode (the oracle fills the converged mass flow),
and save the charge network under `charge_design`. Discharging block
(lines 107-111): set the discharge-network bus power and connection
pressure, but then — exactly as the source reads — set the pipe length on
`self.tespy_charge` (line 109), solve the discharge network, and save
`self.tespy_charge` under `discharge_design` (line 111). -/
def power_plant_layout (cfg : LayoutCfg) (wdir : String) (st : LayoutState) : LayoutState :=
  let c1 : Net := { st.tespy_charge with busP := some cfg.power_nominal_charge }
  let c2 : Net := { c1 with connP := some cfg.p_nom, connM := none }
  let c3 : Net := { c2 with pipeL := some cfg.min_well_depth }
  let c4 : Net := { c3 with connM := some (cfg.solve_design_charge c3) }
  let saves1 := (wdir ++ "charge_design", c4) :: st.saves
  let d1 : Net := { st.tespy_discharge with busP := some cfg.power_nominal_discharge }
  let d2 : Net := { d1 with connP := some cfg.p_nom, connM := none }
  let c5 : Net := { c4 with pipeL := some cfg.min_well_depth }
  let d3 : Net := { d2 with connM := some (cfg.solve_design_discharge d2) }
  let saves2 := (wdir ++ "discharge_design", c5) :: saves1
  { tespy_charge := c5, tespy_discharge := d3, saves := saves2 }

/-- The reference state last saved under a path. -/
def savedAt (st : LayoutState) (p : String) : Option Net :=
  (st.saves.find? (fun pr => pr.1 == p)).map (fun pr => pr.2)

/-- A concrete layout configuration: charge nominal power -1000, discharge
nominal power 900, nominal pressure 100, minimum well depth 300, a charge
design solve converging to mass flow 7 and a discharge design solve
converging to mass flow 9. -/
def cfg0 : LayoutCfg where
  power_nominal_charge := -1000
  power_nominal_discharge := 900
  p_nom := 100
  min_well_depth := 300
  solve_design_charge := fun _ => 7
  solve_design_discharge := fun _ => 9

/-- Initial networks as loaded from file: pipe lengths 1 and 2, nothing
else set, no saves yet. -/
def st0 : LayoutState where
  tespy_charge := { busP := none, connP := none, connM := none, pipeL := some 1 }
  tespy_discharge := { busP := none, connP := none, connM := none, pipeL := some 2 }
  saves := []

/-- Claim C3, evaluated at the failing input. After `power_plant_layout` on
the concrete configuration, the state persisted under `discharge_design` is
the charging network (bus power -1000, the charge nominal, and mass flow 7,
the charge design solve result, not the discharge values 900 and 9), and
the discharging network pipe length is still its initial value 2, not the
minimum well depth 300: lines 109 and 111 of the source address
`self.tespy_charge` inside the discharging block. -/
theorem C3_layout_code_bug :
    savedAt (power_plant_layout cfg0 ("w/") st0) ("w/discharge_design") =
      some { busP := some (-1000), connP := some 100, connM := some 7, pipeL := some 300 } ∧
    (power_plant_layout cfg0 ("w/") st0).tespy_discharge.pipeL = some 2 ∧
    cfg0.min_well_depth = 300 ∧
    cfg0.power_nominal_discharge = 900 ∧
    (power_plant_layout cfg0 ("w/") st0).tespy_discharge.connM = some 9 := by
  refine ⟨?_, rfl, rfl, rfl, rfl⟩
  rfl

/-- Builtin names of CPython that `model.__init__` uses; bare-name lookup
falls back to these after the local and global scopes. `wdir` is not among
them. -/
def pyBuiltins : List String :=
  ["open", "abs", "str", "print", "hasattr", "list", "map", "float", "ValueError"]

/-- Module-level global names of coupling/powerplant.py: the imports of
lines 11-17 and the module definitions. `wdir` is not among them. -/
def moduleGlobals : List String :=
  ["pd", "np", "json", "interpolate", "logging", "nwkr", "logger", "model",
   "reverse_2d", "reverse_2d_deriv", "newton"]

/-- Bare-name resolution in CPython as relevant to `model.__init__`: a name
evaluates successfully iff it is bound in the local scope, the module
global scope, or the builtins. Attribute assignments (`self.x = ...`) and
`self.__dict__.update(...)` bind attributes of the instance, never names in
any of these scopes. -/
def resolvesName (locals : List String) (n : String) : Bool :=
  locals.contains n || moduleGlobals.contains n || pyBuiltins.contains n

/-- One statement of `model.__init__` as it affects name scopes: an
assignment to a local name, an assignment to a `self.` attribute, the
`self.__dict__.update(json.load(f))` call, or an expression statement. Each
carries the bare names its evaluation reads, leftmost first, matching the
evaluation order of the source line. -/
inductive InitStmt where
  | bindLocal (x : String) (reads : List String)
  | setAttr (x : String) (reads : List String)
  | updateAttrsFromJson (reads : List String)
  | exprStmt (reads : List String)

/-- Execution of `model.__init__` statements over the pair of the local
scope and the instance attribute set: each statement first resolves the
bare names it reads (raising NameError at the first failure, like CPython),
then performs its binding. The attribute set receives the JSON keys from
`self.__dict__.update(json.load(f))` but is never consulted for bare-name
resolution. -/
def runStmts (jsonKeys : List String) :
    List InitStmt → List String → List String → Except String (List String × List String)
  | [], locals, attrs => .ok (locals, attrs)
  | stmt :: rest, locals, attrs =>
    match stmt with
    | .bindLocal x reads =>
      match reads.find? (fun n => ! resolvesName locals n) with
      | some n => .error ("NameError: name " ++ n ++ " is not defined")
      | none => runStmts jsonKeys rest (x :: locals) attrs
    | .setAttr x reads =>
      match reads.find? (fun n => ! resolvesName locals n) with
      | some n => .error ("NameError: name " ++ n ++ " is not defined")
      | none => runStmts jsonKeys rest locals (x :: attrs)
    | .updateAttrsFromJson reads =>
      match reads.find? (fun n => ! resolvesName locals n) with
      | some n => .error ("NameError: name " ++ n ++ " is not defined")
      | none => runStmts jsonKeys rest locals (jsonKeys ++ attrs)
    | .exprStmt reads =>
      match reads.find? (fun n => ! resolvesName locals n) with
      | some n => .error ("NameError: name " ++ n ++ " is not defined")
      | none => runStmts jsonKeys rest locals attrs

/-- Local names bound on entry to `model.__init__` (line 57): the receiver
and the five parameters. -/
def initParams : List String :=
  ["self", "cd", "min_well_depth", "num_wells", "p_max", "p_min"]

/-- The statements of `model.__init__` (powerplant.py lines 63-89) with the
bare names each line reads. Line 76,
`self.spline_charge_path = wdir + self.spline_charge_path`, reads the bare
name `wdir` first (the left operand of `+` is evaluated before the
attribute access), and only `self.wdir` was ever assigned (line 71), so
`wdir` is bound in no scope. -/
def initStmts : List InitStmt :=
  [.setAttr ("min_well_depth") (["min_well_depth", "self"]),
   .setAttr ("num_wells") (["num_wells", "self"]),
   .setAttr ("p_max") (["p_max", "self"]),
   .setAttr ("p_min") (["p_min", "self"]),
   .bindLocal ("path") (["cd"]),
   .setAttr ("wdir") (["cd", "self"]),
   .bindLocal ("f") (["open", "path"]),
   .updateAttrsFromJson (["json", "f", "self"]),
   .setAttr ("spline_charge_path") (["wdir", "self"]),
   .setAttr ("spline_discharge_path") (["wdir", "self"]),
   .setAttr ("tespy_charge") (["nwkr", "wdir", "self"]),
   .exprStmt (["self"]),
   .setAttr ("tespy_discharge") (["nwkr", "wdir", "self"]),
   .exprStmt (["self"]),
   .exprStmt (["self"]),
   .setAttr ("spline_charge") (["self"]),
   .setAttr ("spline_discharge") (["self"])]

/-- `model.__init__` for an arbitrary JSON control file content, given as
the list of keys `self.__dict__.update(json.load(f))` would add. -/
def model_init (jsonKeys : List String) : Except String (List String × List String) :=
  runStmts jsonKeys initStmts initParams []

/-- Claim C9. For every configuration (every JSON control file content),
`model.__init__` raises NameError at the line assembling the spline table
path: the bare name `wdir` is bound in no scope — the constructor assigned
only the attribute `self.wdir` — so no plant instance is ever constructed
and the entry points are unreachable on a constructed instance. -/
theorem C9_init_name_error (jsonKeys : List String) :
    model_init jsonKeys = .error ("NameError: name wdir is not defined") := rfl

/-- Witness for C9_init_name_error at the empty JSON content. -/
theorem C9_init_name_error_witness :
    model_init [] = .error ("NameError: name wdir is not defined") :=
  C9_init_name_error []

end PowerPlant
